import Mathlib

/-
Verification of the handshake escrow program's `reject_transfer` instruction
(`programs/handshake/src/instructions/reject_transfer.rs`).

The instruction handler is embedded directly from the source. The `Pool` and
`SecureTransfer` helper methods (`calculate_transfer_fee`, `add_withdrawal`,
`add_collected_fees`, `increment_transfers_resolved`, `validate_active`,
`mark_as_rejected`) live in the crate's `state.rs`, which is not part of the
given sources; they are modelled from the specification, as is the external
SPL token `transfer_checked` call and the Anchor account-constraint /
account-close machinery.

Pubkeys are modelled as naturals; u64 counters are naturals with explicit
bounds checks against `2 ^ 64 - 1`; the reason message (a Rust `String`,
whose `len()` is its byte length) is modelled as a list of bytes.

The handler is given abort semantics that keep the partial state: it returns
the error (if any) together with the state as mutated up to the point of
failure, which makes the order of checks and effects observable. The full
instruction wrapper additionally models Solana transaction atomicity (a
failed instruction rolls every account back to its initial state) and
Anchor's `close = sender` behaviour on success.
-/

deriving instance DecidableEq for Except

namespace Handshake

/-- Largest value representable by a `u64` counter. -/
def U64_MAX : Nat := 2 ^ 64 - 1

/-- Lifecycle status of a `SecureTransfer` (spec section on SecureTransfer). -/
inductive TransferStatus where
  | Pending
  | Accepted
  | Rejected
  | Expired
deriving DecidableEq

/-- Errors surfaced by the instruction. The first four are the program's own
`HandshakeError` variants used by `reject_transfer`; `LedgerError` models a
failure propagated from the external token ledger; `ConstraintViolation`
models an Anchor account-constraint failure (checked before the handler). -/
inductive ProgError where
  | Unauthorized
  | InactiveTransfer
  | InvalidMemoLength
  | ArithmeticOverflow
  | LedgerError
  | ConstraintViolation
deriving DecidableEq

/-- The pool account: configuration plus running counters (spec data model). -/
structure Pool where
  pool_id : Nat
  operator : Nat
  mint : Nat
  feeBps : Nat
  bump : Nat
  total_deposited : Nat
  total_withdrawn : Nat
  total_fees_collected : Nat
  transfers_resolved : Nat
deriving DecidableEq

/-- One escrowed transfer's record (spec data model). `pool` is the
back-reference to the owning pool's address. -/
structure SecureTransfer where
  pool : Nat
  sender : Nat
  recipient : Nat
  amount : Nat
  status : TransferStatus
  created_at : Nat
  expires_at : Nat
deriving DecidableEq

/-- The `TransferRejected` event emitted by the handler, fields as in the
source's `emit!`. -/
structure TransferRejected where
  transfer : Nat
  pool : Nat
  sender : Nat
  recipient : Nat
  amount : Nat
  fee : Nat
  net_amount : Nat
  reason_code : Nat
  reason_message : List Nat
deriving DecidableEq

/-- All on-chain state touched by the instruction: the pool account, the
transfer account, the two token-account balances, the emitted event log, and
the lamport/closed bookkeeping of the transfer account and the sender. -/
structure ChainState where
  pool : Pool
  transfer : SecureTransfer
  poolTokenBalance : Nat
  senderTokenBalance : Nat
  events : List TransferRejected
  transferClosed : Bool
  transferLamports : Nat
  senderLamports : Nat
deriving DecidableEq

/-- Modelled from the spec: `Pool::calculate_transfer_fee` (in the crate's
`state.rs`, not among the given sources) delegates to the FeeSchedule with
the pool's policy — a proportional basis-point rate, computed in widened
intermediate arithmetic and clamped so the fee never exceeds the amount
(spec: "Must satisfy `0 <= fee <= amount`", "check/clamp before narrowing").
A policy is valid when `feeBps ≤ 10000`. -/
def Pool.calculate_transfer_fee (p : Pool) (amount : Nat) : Nat :=
  min (amount * p.feeBps / 10000) amount

/-- Modelled from the spec: `Pool::add_withdrawal` (in `state.rs`, not among
the given sources) increments `total_withdrawn`; it fails with
`ArithmeticOverflow` if the increment would overflow the 64-bit counter or
violate the pool invariant
`total_withdrawn + total_fees_collected ≤ total_deposited`. -/
def Pool.add_withdrawal (p : Pool) (amount : Nat) : Except ProgError Pool :=
  if p.total_withdrawn + amount ≤ U64_MAX then
    if p.total_withdrawn + amount + p.total_fees_collected ≤ p.total_deposited then
      .ok { p with total_withdrawn := p.total_withdrawn + amount }
    else .error .ArithmeticOverflow
  else .error .ArithmeticOverflow

/-- Modelled from the spec: `Pool::add_collected_fees` (in `state.rs`, not
among the given sources) increments `total_fees_collected` with the same
overflow-and-invariant discipline as `add_withdrawal`. -/
def Pool.add_collected_fees (p : Pool) (amount : Nat) : Except ProgError Pool :=
  if p.total_fees_collected + amount ≤ U64_MAX then
    if p.total_withdrawn + (p.total_fees_collected + amount) ≤ p.total_deposited then
      .ok { p with total_fees_collected := p.total_fees_collected + amount }
    else .error .ArithmeticOverflow
  else .error .ArithmeticOverflow

/-- Modelled from the spec: `Pool::increment_transfers_resolved` (in
`state.rs`, not among the given sources) increments the resolved counter and
fails with `ArithmeticOverflow` on 64-bit overflow. -/
def Pool.increment_transfers_resolved (p : Pool) : Except ProgError Pool :=
  if p.transfers_resolved + 1 ≤ U64_MAX then
    .ok { p with transfers_resolved := p.transfers_resolved + 1 }
  else .error .ArithmeticOverflow

/-- Modelled from the spec: `SecureTransfer::validate_active` (in `state.rs`,
not among the given sources) fails with `InactiveTransfer` unless the status
is `Pending`. -/
def SecureTransfer.validate_active (t : SecureTransfer) : Except ProgError Unit :=
  if t.status = .Pending then .ok () else .error .InactiveTransfer

/-- Modelled from the spec: `SecureTransfer::mark_as_rejected` (in
`state.rs`, not among the given sources) asserts the current status is
`Pending` (defensive double-check) and transitions to `Rejected`; the
`mark_as_*` methods are the only writers of `status`. -/
def SecureTransfer.mark_as_rejected (t : SecureTransfer) : Except ProgError SecureTransfer :=
  if t.status = .Pending then .ok { t with status := .Rejected } else .error .InactiveTransfer

/-- Modelled from the spec: the external asset ledger's atomic move (the SPL
`transfer_checked` CPI, not among the given sources) moves `amount` from the
source balance to the destination balance; it fails cleanly, moving nothing,
when the source balance is insufficient or the destination would overflow a
`u64`. Returns the pair (new source balance, new destination balance). -/
def transfer_checked (fromBalance toBalance amount : Nat) : Except ProgError (Nat × Nat) :=
  if amount ≤ fromBalance then
    if toBalance + amount ≤ U64_MAX then
      .ok (fromBalance - amount, toBalance + amount)
    else .error .LedgerError
  else .error .LedgerError

/-- The `reject_transfer` handler, embedded from the source. Arguments
`operatorKey`, `poolKey`, `transferKey` are the addresses of the operator
signer, the pool account and the transfer account (`.key()` in the source);
`reason_code` and `reason_message` are the instruction arguments. The result
pairs the handler's `Result<()>` with the state as mutated up to the point of
return, so a failure after the token transfer keeps the moved balances. -/
def reject_transfer (operatorKey poolKey transferKey reason_code : Nat)
    (reason_message : List Nat) (s : ChainState) :
    Except ProgError Unit × ChainState :=
  -- Validate operator
  if operatorKey = s.pool.operator then
    -- Validate transfer is active
    match s.transfer.validate_active with
    | .error e => (.error e, s)
    | .ok _ =>
      -- Validate reason message length
      if reason_message.length ≤ 200 then
        -- Calculate fee (pool keeps fee on rejection)
        let fee := s.pool.calculate_transfer_fee s.transfer.amount
        let net_amount := s.transfer.amount - fee
        -- Transfer net amount to sender
        match transfer_checked s.poolTokenBalance s.senderTokenBalance net_amount with
        | .error e => (.error e, s)
        | .ok balances =>
          let s1 := { s with poolTokenBalance := balances.1,
                             senderTokenBalance := balances.2 }
          -- Update pool accounting
          match s1.pool.add_withdrawal s.transfer.amount with
          | .error e => (.error e, s1)
          | .ok pool1 =>
            let s2 := { s1 with pool := pool1 }
            match (if fee > 0 then s2.pool.add_collected_fees fee else .ok s2.pool) with
            | .error e => (.error e, s2)
            | .ok pool2 =>
              let s3 := { s2 with pool := pool2 }
              match s3.pool.increment_transfers_resolved with
              | .error e => (.error e, s3)
              | .ok pool3 =>
                let s4 := { s3 with pool := pool3 }
                -- Mark transfer as rejected
                match s4.transfer.mark_as_rejected with
                | .error e => (.error e, s4)
                | .ok t1 =>
                  let s5 := { s4 with transfer := t1 }
                  (.ok (), { s5 with events := s5.events ++
                    [{ transfer := transferKey, pool := poolKey,
                       sender := s.transfer.sender, recipient := s.transfer.recipient,
                       amount := s.transfer.amount, fee := fee, net_amount := net_amount,
                       reason_code := reason_code, reason_message := reason_message }] })
      else (.error .InvalidMemoLength, s)
  else (.error .Unauthorized, s)

/-- The full `RejectTransfer` instruction: Anchor first checks the account
constraints from the `#[derive(Accounts)]` struct (`mint.key() == pool.mint`
and `transfer.pool == pool.key()`), then runs the handler, and on success
closes the transfer account to the sender (`close = sender`: its lamports are
credited to the sender and the account is removed). A failure anywhere rolls
the whole transaction back to the initial state. -/
def reject_transfer_instruction (operatorKey poolKey mintKey transferKey reason_code : Nat)
    (reason_message : List Nat) (s : ChainState) :
    Except ProgError Unit × ChainState :=
  if mintKey = s.pool.mint then
    if s.transfer.pool = poolKey then
      match reject_transfer operatorKey poolKey transferKey reason_code reason_message s with
      | (.ok _, s1) =>
        (.ok (), { s1 with transferClosed := true,
                           senderLamports := s1.senderLamports + s1.transferLamports,
                           transferLamports := 0 })
      | (.error e, _) => (.error e, s)
    else (.error .ConstraintViolation, s)
  else (.error .ConstraintViolation, s)

/-- A sample pool with a 2% (200 basis point) fee, operated by key 7. -/
def examplePool : Pool :=
  { pool_id := 1, operator := 7, mint := 3, feeBps := 200, bump := 255,
    total_deposited := 2000, total_withdrawn := 0, total_fees_collected := 0,
    transfers_resolved := 0 }

/-- A sample pending transfer of amount 1000, escrowed in the pool at key 11. -/
def exampleTransfer : SecureTransfer :=
  { pool := 11, sender := 5, recipient := 6, amount := 1000, status := .Pending,
    created_at := 0, expires_at := 0 }

/-- A sample chain state in which a reject of `exampleTransfer` succeeds. -/
def exampleSt : ChainState :=
  { pool := examplePool, transfer := exampleTransfer,
    poolTokenBalance := 1500, senderTokenBalance := 10,
    events := [], transferClosed := false, transferLamports := 9,
    senderLamports := 100 }

/-- `exampleSt` with a pending transfer of amount 0 (zero-fee path). -/
def zeroAmountSt : ChainState :=
  { exampleSt with transfer := { exampleTransfer with amount := 0 } }

/-- `exampleSt` with an already-rejected (resolved) transfer. -/
def resolvedSt : ChainState :=
  { exampleSt with transfer := { exampleTransfer with status := .Rejected } }

/-- The run of the full instruction on `exampleSt` by the operator. -/
def exampleRun : Except ProgError Unit × ChainState :=
  reject_transfer_instruction 7 11 3 9 0 [] exampleSt

/-- The run of the bare handler on `exampleSt` by the operator. -/
def exampleHandlerRun : Except ProgError Unit × ChainState :=
  reject_transfer 7 11 9 0 [] exampleSt

/-- Inversion for a successful `validate_active`: the status was `Pending`. -/
theorem validate_active_ok {t : SecureTransfer} {u : Unit}
    (h : t.validate_active = .ok u) : t.status = .Pending := by
  unfold SecureTransfer.validate_active at h
  split at h
  · assumption
  · exact absurd h (by simp)

/-- `validate_active` only ever fails with `InactiveTransfer`, on a
non-`Pending` status. -/
theorem validate_active_err {t : SecureTransfer} {e : ProgError}
    (h : t.validate_active = .error e) :
    e = .InactiveTransfer ∧ t.status ≠ .Pending := by
  unfold SecureTransfer.validate_active at h
  split at h
  · exact absurd h (by simp)
  · exact ⟨by injection h with h1; exact h1.symm, by assumption⟩

/-- Inversion for a successful `mark_as_rejected`. -/
theorem mark_as_rejected_ok {t u : SecureTransfer}
    (h : t.mark_as_rejected = .ok u) :
    t.status = .Pending ∧ u = { t with status := .Rejected } := by
  unfold SecureTransfer.mark_as_rejected at h
  split at h
  · exact ⟨by assumption, by injection h with h1; exact h1.symm⟩
  · exact absurd h (by simp)

/-- `mark_as_rejected` fails only on a non-`Pending` status. -/
theorem mark_as_rejected_err {t : SecureTransfer} {e : ProgError}
    (h : t.mark_as_rejected = .error e) : t.status ≠ .Pending := by
  unfold SecureTransfer.mark_as_rejected at h
  split at h
  · exact absurd h (by simp)
  · assumption

/-- Inversion for a successful `add_withdrawal`: the bounds held and only
`total_withdrawn` changed. -/
theorem add_withdrawal_ok {p q : Pool} {a : Nat} (h : p.add_withdrawal a = .ok q) :
    p.total_withdrawn + a + p.total_fees_collected ≤ p.total_deposited ∧
    q = { p with total_withdrawn := p.total_withdrawn + a } := by
  unfold Pool.add_withdrawal at h
  split at h
  · split at h
    · exact ⟨by assumption, by injection h with h1; exact h1.symm⟩
    · exact absurd h (by simp)
  · exact absurd h (by simp)

/-- `add_withdrawal` only ever fails with `ArithmeticOverflow`. -/
theorem add_withdrawal_err {p : Pool} {a : Nat} {e : ProgError}
    (h : p.add_withdrawal a = .error e) : e = .ArithmeticOverflow := by
  unfold Pool.add_withdrawal at h
  split at h
  · split at h
    · exact absurd h (by simp)
    · injection h with h1; exact h1.symm
  · injection h with h1; exact h1.symm

/-- Inversion for a successful `add_collected_fees`. -/
theorem add_collected_fees_ok {p q : Pool} {a : Nat}
    (h : p.add_collected_fees a = .ok q) :
    p.total_withdrawn + (p.total_fees_collected + a) ≤ p.total_deposited ∧
    q = { p with total_fees_collected := p.total_fees_collected + a } := by
  unfold Pool.add_collected_fees at h
  split at h
  · split at h
    · exact ⟨by assumption, by injection h with h1; exact h1.symm⟩
    · exact absurd h (by simp)
  · exact absurd h (by simp)

/-- `add_collected_fees` only ever fails with `ArithmeticOverflow`. -/
theorem add_collected_fees_err {p : Pool} {a : Nat} {e : ProgError}
    (h : p.add_collected_fees a = .error e) : e = .ArithmeticOverflow := by
  unfold Pool.add_collected_fees at h
  split at h
  · split at h
    · exact absurd h (by simp)
    · injection h with h1; exact h1.symm
  · injection h with h1; exact h1.symm

/-- Inversion for a successful `increment_transfers_resolved`. -/
theorem increment_transfers_resolved_ok {p q : Pool}
    (h : p.increment_transfers_resolved = .ok q) :
    q = { p with transfers_resolved := p.transfers_resolved + 1 } := by
  unfold Pool.increment_transfers_resolved at h
  split at h
  · injection h with h1; exact h1.symm
  · exact absurd h (by simp)

/-- `increment_transfers_resolved` only ever fails with `ArithmeticOverflow`. -/
theorem increment_transfers_resolved_err {p : Pool} {e : ProgError}
    (h : p.increment_transfers_resolved = .error e) : e = .ArithmeticOverflow := by
  unfold Pool.increment_transfers_resolved at h
  split at h
  · exact absurd h (by simp)
  · injection h with h1; exact h1.symm

/-- Inversion for a successful external ledger move. -/
theorem transfer_checked_ok {fb tb a : Nat} {r : Nat × Nat}
    (h : transfer_checked fb tb a = .ok r) :
    a ≤ fb ∧ r = (fb - a, tb + a) := by
  unfold transfer_checked at h
  split at h
  · split at h
    · exact ⟨by assumption, by injection h with h1; exact h1.symm⟩
    · exact absurd h (by simp)
  · exact absurd h (by simp)

/-- The external ledger move only ever fails with `LedgerError`. -/
theorem transfer_checked_err {fb tb a : Nat} {e : ProgError}
    (h : transfer_checked fb tb a = .error e) : e = .LedgerError := by
  unfold transfer_checked at h
  split at h
  · split at h
    · exact absurd h (by simp)
    · injection h with h1; exact h1.symm
  · injection h with h1; exact h1.symm

/-- The external ledger move fails when the source balance is insufficient. -/
theorem transfer_checked_insufficient {fb tb a : Nat} (hlt : fb < a) :
    transfer_checked fb tb a = .error .LedgerError := by
  unfold transfer_checked
  rw [if_neg (by omega)]

/-- Full inversion of a successful `reject_transfer` run: the operator was
authorized, the transfer was pending, the message fit the bound, the pool
custody covered the net refund, the counters (after the update) respect the
pool invariant, and the final state is exactly the initial state with the
net amount moved, the counters bumped, the status set to `Rejected`, and the
`TransferRejected` event appended. -/
theorem reject_transfer_ok_inv {opk pk tk rc : Nat} {rm : List Nat}
    {s s1 : ChainState}
    (h : reject_transfer opk pk tk rc rm s = (.ok (), s1)) :
    opk = s.pool.operator ∧
    s.transfer.status = .Pending ∧
    rm.length ≤ 200 ∧
    s.transfer.amount - s.pool.calculate_transfer_fee s.transfer.amount ≤
      s.poolTokenBalance ∧
    s.pool.total_withdrawn + s.transfer.amount + s.pool.total_fees_collected +
      s.pool.calculate_transfer_fee s.transfer.amount ≤ s.pool.total_deposited ∧
    s1 = { s with
      pool := { s.pool with
        total_withdrawn := s.pool.total_withdrawn + s.transfer.amount,
        total_fees_collected := s.pool.total_fees_collected +
          s.pool.calculate_transfer_fee s.transfer.amount,
        transfers_resolved := s.pool.transfers_resolved + 1 },
      transfer := { s.transfer with status := .Rejected },
      poolTokenBalance := s.poolTokenBalance -
        (s.transfer.amount - s.pool.calculate_transfer_fee s.transfer.amount),
      senderTokenBalance := s.senderTokenBalance +
        (s.transfer.amount - s.pool.calculate_transfer_fee s.transfer.amount),
      events := s.events ++
        [{ transfer := tk, pool := pk,
           sender := s.transfer.sender, recipient := s.transfer.recipient,
           amount := s.transfer.amount,
           fee := s.pool.calculate_transfer_fee s.transfer.amount,
           net_amount := s.transfer.amount -
             s.pool.calculate_transfer_fee s.transfer.amount,
           reason_code := rc, reason_message := rm }] } := by
  simp only [reject_transfer] at h
  split at h
  case isFalse hop => exact absurd h (by simp)
  case isTrue hop =>
  split at h
  case h_1 e heq => exact absurd h (by simp)
  case h_2 uval hval =>
  split at h
  case isFalse hlen => exact absurd h (by simp)
  case isTrue hlen =>
  split at h
  case h_1 e htc => exact absurd h (by simp)
  case h_2 balances htc =>
  split at h
  case h_1 e hw => exact absurd h (by simp)
  case h_2 pool1 hw =>
  split at h
  case h_1 e hf => exact absurd h (by simp)
  case h_2 pool2 hf =>
  split at h
  case h_1 e hi => exact absurd h (by simp)
  case h_2 pool3 hi =>
  split at h
  case h_1 e hm => exact absurd h (by simp)
  case h_2 t1 hm =>
  injection h with h1 h2
  subst h2
  obtain ⟨hble, hbal⟩ := transfer_checked_ok htc
  subst hbal
  obtain ⟨hwle, hw1⟩ := add_withdrawal_ok hw
  subst hw1
  obtain ⟨hmp, hm1⟩ := mark_as_rejected_ok hm
  subst hm1
  have hi1 := increment_transfers_resolved_ok hi
  subst hi1
  by_cases hfee : s.pool.calculate_transfer_fee s.transfer.amount > 0
  · rw [if_pos hfee] at hf
    obtain ⟨hfle, hf1⟩ := add_collected_fees_ok hf
    subst hf1
    simp at hfle
    refine ⟨hop, validate_active_ok hval, hlen, hble, by omega, ?_⟩
    simp
  · rw [if_neg hfee] at hf
    injection hf with hf1
    subst hf1
    refine ⟨hop, validate_active_ok hval, hlen, hble, by omega, ?_⟩
    simp
    omega

/-- Frame lemma for failing `reject_transfer` runs: no error path ever
mutates the transfer record, the event log, or the lamport bookkeeping, and
every failure raised before the external fund movement (`Unauthorized`,
`InactiveTransfer`, `InvalidMemoLength`) or by the fund movement itself
(`LedgerError`) leaves the entire state untouched. -/
theorem reject_transfer_err_frame {opk pk tk rc : Nat} {rm : List Nat}
    {s s1 : ChainState} {e : ProgError}
    (h : reject_transfer opk pk tk rc rm s = (.error e, s1)) :
    s1.transfer = s.transfer ∧
    s1.events = s.events ∧
    s1.transferClosed = s.transferClosed ∧
    s1.transferLamports = s.transferLamports ∧
    s1.senderLamports = s.senderLamports ∧
    (e = .Unauthorized ∨ e = .InactiveTransfer ∨ e = .InvalidMemoLength ∨
      e = .LedgerError → s1 = s) := by
  simp only [reject_transfer] at h
  split at h
  case isFalse hop =>
    injection h with h1 h2
    subst h2
    exact ⟨rfl, rfl, rfl, rfl, rfl, fun _ => rfl⟩
  case isTrue hop =>
  split at h
  case h_1 e0 hval =>
    injection h with h1 h2
    subst h2
    exact ⟨rfl, rfl, rfl, rfl, rfl, fun _ => rfl⟩
  case h_2 uval hval =>
  split at h
  case isFalse hlen =>
    injection h with h1 h2
    subst h2
    exact ⟨rfl, rfl, rfl, rfl, rfl, fun _ => rfl⟩
  case isTrue hlen =>
  split at h
  case h_1 e0 htc =>
    injection h with h1 h2
    subst h2
    exact ⟨rfl, rfl, rfl, rfl, rfl, fun _ => rfl⟩
  case h_2 balances htc =>
  split at h
  case h_1 e0 hw =>
    injection h with h1 h2
    subst h2
    injection h1 with h1
    have he : e = ProgError.ArithmeticOverflow := h1 ▸ add_withdrawal_err hw
    subst he
    exact ⟨rfl, rfl, rfl, rfl, rfl, by rintro (h3 | h3 | h3 | h3) <;> exact absurd h3 (by simp)⟩
  case h_2 pool1 hw =>
  split at h
  case h_1 e0 hf =>
    injection h with h1 h2
    subst h2
    injection h1 with h1
    by_cases hfee : s.pool.calculate_transfer_fee s.transfer.amount > 0
    · rw [if_pos hfee] at hf
      have he : e = ProgError.ArithmeticOverflow := h1 ▸ add_collected_fees_err hf
      subst he
      exact ⟨rfl, rfl, rfl, rfl, rfl, by rintro (h3 | h3 | h3 | h3) <;> exact absurd h3 (by simp)⟩
    · rw [if_neg hfee] at hf
      exact absurd hf (by simp)
  case h_2 pool2 hf =>
  split at h
  case h_1 e0 hi =>
    injection h with h1 h2
    subst h2
    injection h1 with h1
    have he : e = ProgError.ArithmeticOverflow := h1 ▸ increment_transfers_resolved_err hi
    subst he
    exact ⟨rfl, rfl, rfl, rfl, rfl, by rintro (h3 | h3 | h3 | h3) <;> exact absurd h3 (by simp)⟩
  case h_2 pool3 hi =>
  split at h
  case h_1 e0 hm =>
    exact absurd (validate_active_ok hval) (mark_as_rejected_err hm)
  case h_2 t1 hm =>
    exact absurd h (by simp)

/-- The fee never exceeds the amount it is computed from. -/
theorem fee_le_amount (p : Pool) (a : Nat) : p.calculate_transfer_fee a ≤ a :=
  min_le_right _ _

/-- An unauthorized caller makes the handler fail first, with `Unauthorized`
and the state untouched, whatever the transfer's status or the message. -/
theorem reject_unauthorized {opk : Nat} (pk tk rc : Nat) (rm : List Nat)
    (s : ChainState) (hop : opk ≠ s.pool.operator) :
    reject_transfer opk pk tk rc rm s = (.error .Unauthorized, s) := by
  unfold reject_transfer
  rw [if_neg hop]

/-- With an authorized caller, a non-pending transfer makes the handler fail
with `InactiveTransfer` and the state untouched, whatever the message. -/
theorem reject_inactive {opk : Nat} (pk tk rc : Nat) (rm : List Nat)
    (s : ChainState) (hop : opk = s.pool.operator)
    (hst : s.transfer.status ≠ .Pending) :
    reject_transfer opk pk tk rc rm s = (.error .InactiveTransfer, s) := by
  unfold reject_transfer SecureTransfer.validate_active
  rw [if_pos hop, if_neg hst]

/-- With an authorized caller and a pending transfer, an overlong reason
message makes the handler fail with `InvalidMemoLength`, state untouched. -/
theorem reject_memo_too_long {opk : Nat} (pk tk rc : Nat) {rm : List Nat}
    (s : ChainState) (hop : opk = s.pool.operator)
    (hst : s.transfer.status = .Pending) (hlen : ¬ rm.length ≤ 200) :
    reject_transfer opk pk tk rc rm s = (.error .InvalidMemoLength, s) := by
  unfold reject_transfer SecureTransfer.validate_active
  rw [if_pos hop, if_pos hst, if_neg hlen]

/-- When every check passes but the pool custody balance cannot cover the
net refund, the external move fails and the handler returns `LedgerError`
with the state untouched. -/
theorem reject_ledger_insufficient {opk : Nat} (pk tk rc : Nat) {rm : List Nat}
    (s : ChainState) (hop : opk = s.pool.operator)
    (hst : s.transfer.status = .Pending) (hlen : rm.length ≤ 200)
    (hlt : s.poolTokenBalance <
      s.transfer.amount - s.pool.calculate_transfer_fee s.transfer.amount) :
    reject_transfer opk pk tk rc rm s = (.error .LedgerError, s) := by
  simp only [reject_transfer, SecureTransfer.validate_active]
  rw [if_pos hop, if_pos hst, if_pos hlen, transfer_checked_insufficient hlt]

/-- Inversion of a successful full instruction: both Anchor account
constraints held, the handler succeeded, and on top of the handler's result
the transfer account was closed with its lamports credited to the sender. -/
theorem reject_instruction_ok_inv {opk pk mk tk rc : Nat} {rm : List Nat}
    {s s1 : ChainState}
    (h : reject_transfer_instruction opk pk mk tk rc rm s = (.ok (), s1)) :
    mk = s.pool.mint ∧ s.transfer.pool = pk ∧
    ∃ s2, reject_transfer opk pk tk rc rm s = (.ok (), s2) ∧
      s1 = { s2 with transferClosed := true,
                     senderLamports := s2.senderLamports + s2.transferLamports,
                     transferLamports := 0 } := by
  unfold reject_transfer_instruction at h
  split at h
  case isFalse hmk => exact absurd h (by simp)
  case isTrue hmk =>
  split at h
  case isFalse hpk => exact absurd h (by simp)
  case isTrue hpk =>
  split at h
  case h_1 u s2 heq =>
    cases u
    injection h with h1 h2
    exact ⟨hmk, hpk, s2, heq, h2.symm⟩
  case h_2 e s2 heq => exact absurd h (by simp)

/-- C1: In `reject_transfer`, the checks and effects occur in exactly the
order operator-authorization check → transfer active-state check →
reason-message length check → fee computation → external token transfer →
pool counter updates → transfer status mutation → event emission. An
unauthorized caller fails `Unauthorized` whatever else holds; an authorized
caller on an inactive transfer fails `InactiveTransfer` whatever the
message; next an overlong message fails `InvalidMemoLength`; next the
already-computed fee determines the net amount whose external move fails
`LedgerError` on insufficient custody; and any failure occurring before the
external fund movement (the three checks, or the atomic move itself) leaves
the pool counters and the transfer status — indeed the whole state —
completely unchanged, while no failure at all mutates the transfer record or
emits an event. -/
theorem c1_reject_order_and_atomicity (opk pk tk rc : Nat) (rm : List Nat)
    (s : ChainState) :
    (opk ≠ s.pool.operator →
      reject_transfer opk pk tk rc rm s = (.error .Unauthorized, s)) ∧
    (opk = s.pool.operator → s.transfer.status ≠ .Pending →
      reject_transfer opk pk tk rc rm s = (.error .InactiveTransfer, s)) ∧
    (opk = s.pool.operator → s.transfer.status = .Pending → 200 < rm.length →
      reject_transfer opk pk tk rc rm s = (.error .InvalidMemoLength, s)) ∧
    (opk = s.pool.operator → s.transfer.status = .Pending → rm.length ≤ 200 →
      s.poolTokenBalance <
        s.transfer.amount - s.pool.calculate_transfer_fee s.transfer.amount →
      reject_transfer opk pk tk rc rm s = (.error .LedgerError, s)) ∧
    (∀ e s1, reject_transfer opk pk tk rc rm s = (.error e, s1) →
      s1.transfer = s.transfer ∧ s1.events = s.events ∧
      (e = .Unauthorized ∨ e = .InactiveTransfer ∨ e = .InvalidMemoLength ∨
        e = .LedgerError → s1 = s)) := by
  refine ⟨fun hop => reject_unauthorized pk tk rc rm s hop,
    fun hop hst => reject_inactive pk tk rc rm s hop hst,
    fun hop hst hlen => reject_memo_too_long pk tk rc s hop hst (by omega),
    fun hop hst hlen hlt => reject_ledger_insufficient pk tk rc s hop hst hlen hlt,
    fun e s1 h => ?_⟩
  obtain ⟨h1, h2, _, _, _, h6⟩ := reject_transfer_err_frame h
  exact ⟨h1, h2, h6⟩

/-- C1 witness: the first failing check on a concrete unauthorized call. -/
theorem c1_witness :
    reject_transfer 1 11 9 0 [] exampleSt = (.error .Unauthorized, exampleSt) :=
  (c1_reject_order_and_atomicity 1 11 9 0 [] exampleSt).1 (by decide)

/-- C4: a caller whose key differs from `pool.operator` always fails
`Unauthorized`, regardless of the transfer's status (the state is
universally quantified, so the transfer may be pending or resolved), and
the handler returns with the state — pool and transfer included —
completely unmutated. -/
theorem c4_unauthorized (opk pk tk rc : Nat) (rm : List Nat) (s : ChainState)
    (hop : opk ≠ s.pool.operator) :
    reject_transfer opk pk tk rc rm s = (.error .Unauthorized, s) :=
  reject_unauthorized pk tk rc rm s hop

/-- C4 witness: a non-operator call on an already-resolved transfer still
fails `Unauthorized` and mutates nothing. -/
theorem c4_witness :
    reject_transfer 2 11 9 5 [] resolvedSt = (.error .Unauthorized, resolvedSt) :=
  c4_unauthorized 2 11 9 5 [] resolvedSt (by decide)

/-- C10: the `RejectTransfer` accounts carry the constraint
`transfer.pool == pool.key()`; for every mismatched transfer/pool pair the
instruction fails with a constraint violation before the handler runs, with
no fund movement and no state mutation, so one pool's operator can never
settle another pool's transfer against this pool's accounting. -/
theorem c10_pool_binding (opk pk mk tk rc : Nat) (rm : List Nat)
    (s : ChainState) (hmis : s.transfer.pool ≠ pk) :
    reject_transfer_instruction opk pk mk tk rc rm s =
      (.error .ConstraintViolation, s) := by
  unfold reject_transfer_instruction
  by_cases hmk : mk = s.pool.mint
  · rw [if_pos hmk, if_neg hmis]
  · rw [if_neg hmk]

/-- C10 witness: supplying pool key 12 while the transfer references pool 11
is rejected by the account constraints with the state untouched. -/
theorem c10_witness :
    reject_transfer_instruction 7 12 3 9 0 [] exampleSt =
      (.error .ConstraintViolation, exampleSt) :=
  c10_pool_binding 7 12 3 9 0 [] exampleSt (by decide)

/-- C2: for every pool state satisfying
`total_withdrawn + total_fees_collected ≤ total_deposited` before a
successful `reject_transfer` instruction, the state after the call still
satisfies it — the counter mutators (modelled from the spec) fail with
`ArithmeticOverflow` rather than violating the invariant or wrapping, so a
successful run can only produce an invariant-respecting pool. -/
theorem c2_invariant_preserved (opk pk mk tk rc : Nat) (rm : List Nat)
    (s s1 : ChainState)
    (_hinv : s.pool.total_withdrawn + s.pool.total_fees_collected ≤
      s.pool.total_deposited)
    (h : reject_transfer_instruction opk pk mk tk rc rm s = (.ok (), s1)) :
    s1.pool.total_withdrawn + s1.pool.total_fees_collected ≤
      s1.pool.total_deposited := by
  obtain ⟨hmk, hpk, s2, hok, hs1⟩ := reject_instruction_ok_inv h
  obtain ⟨_, _, _, _, hbound, hs2⟩ := reject_transfer_ok_inv hok
  subst hs1
  subst hs2
  simp
  omega

/-- C2 witness: the invariant holds after the concrete successful run. -/
theorem c2_witness :
    exampleRun.2.pool.total_withdrawn + exampleRun.2.pool.total_fees_collected ≤
      exampleRun.2.pool.total_deposited :=
  c2_invariant_preserved 7 11 3 9 0 [] exampleSt exampleRun.2 (by decide) rfl

/-- C3 counterexample: the claim "calling `reject_transfer` on a transfer
whose status is not `Pending` always fails with `InactiveTransfer`" is false
as stated: a caller who is not the operator (here key 1, operator 7) calling
on an already-rejected transfer fails with `Unauthorized`, not
`InactiveTransfer`, because the authorization check runs first. -/
theorem c3_counterexample :
    resolvedSt.transfer.status ≠ TransferStatus.Pending ∧
    reject_transfer 1 11 9 0 [] resolvedSt = (.error .Unauthorized, resolvedSt) ∧
    ProgError.Unauthorized ≠ ProgError.InactiveTransfer := by decide

/-- C3 (amended): the status transitions at most once and only from
`Pending` to `Rejected` here; calling `reject_transfer` as the operator on a
transfer whose status is not `Pending` always fails with `InactiveTransfer`
and mutates nothing; hence a second settlement attempt on an
already-resolved transfer always fails — with `InactiveTransfer` when made
by the operator and `Unauthorized` otherwise — and leaves the first
settlement's mutations unchanged. -/
theorem c3_single_settlement (opk pk tk rc : Nat) (rm : List Nat)
    (s : ChainState) :
    (opk = s.pool.operator → s.transfer.status ≠ .Pending →
      reject_transfer opk pk tk rc rm s = (.error .InactiveTransfer, s)) ∧
    (∀ s1, reject_transfer opk pk tk rc rm s = (.ok (), s1) →
      s.transfer.status = .Pending ∧ s1.transfer.status = .Rejected ∧
      ∀ opk2 pk2 tk2 rc2 rm2,
        reject_transfer opk2 pk2 tk2 rc2 rm2 s1 =
          (.error (if opk2 = s1.pool.operator then ProgError.InactiveTransfer
            else ProgError.Unauthorized), s1)) := by
  refine ⟨fun hop hst => reject_inactive pk tk rc rm s hop hst, fun s1 h => ?_⟩
  obtain ⟨_, hpend, _, _, _, hs1⟩ := reject_transfer_ok_inv h
  have hrej : s1.transfer.status = TransferStatus.Rejected := by
    subst hs1; simp
  refine ⟨hpend, hrej, fun opk2 pk2 tk2 rc2 rm2 => ?_⟩
  by_cases hop2 : opk2 = s1.pool.operator
  · rw [if_pos hop2]
    exact reject_inactive pk2 tk2 rc2 rm2 s1 hop2 (by rw [hrej]; simp)
  · rw [if_neg hop2]
    exact reject_unauthorized pk2 tk2 rc2 rm2 s1 hop2

/-- C3 witness: the operator retrying against an already-rejected transfer
fails `InactiveTransfer` with the state untouched. -/
theorem c3_witness :
    reject_transfer 7 11 9 0 [] resolvedSt = (.error .InactiveTransfer, resolvedSt) :=
  (c3_single_settlement 7 11 9 0 [] resolvedSt).1 (by decide) (by decide)

/-- C5: a successful `reject_transfer` increments the withdrawal counter by
the original `transfer.amount` — provably not by the net amount whenever the
fee is positive — and increments the fee counter by the fee, and the net
amount plus the fee reassemble exactly the original escrowed amount, so
`total_withdrawn` together with `total_fees_collected` accounts for the full
amount released. -/
theorem c5_withdrawal_original_amount (opk pk tk rc : Nat) (rm : List Nat)
    (s s1 : ChainState)
    (h : reject_transfer opk pk tk rc rm s = (.ok (), s1)) :
    s1.pool.total_withdrawn = s.pool.total_withdrawn + s.transfer.amount ∧
    s1.pool.total_fees_collected = s.pool.total_fees_collected +
      s.pool.calculate_transfer_fee s.transfer.amount ∧
    (s.transfer.amount - s.pool.calculate_transfer_fee s.transfer.amount) +
      s.pool.calculate_transfer_fee s.transfer.amount = s.transfer.amount ∧
    (0 < s.pool.calculate_transfer_fee s.transfer.amount →
      s1.pool.total_withdrawn ≠ s.pool.total_withdrawn +
        (s.transfer.amount - s.pool.calculate_transfer_fee s.transfer.amount)) := by
  obtain ⟨_, _, _, _, _, hs1⟩ := reject_transfer_ok_inv h
  have hle := fee_le_amount s.pool s.transfer.amount
  subst hs1
  refine ⟨by simp, by simp, by omega, fun hpos => by simp; omega⟩

/-- C5 witness: on the concrete run the withdrawal counter grows by the full
original amount. -/
theorem c5_witness :
    exampleHandlerRun.2.pool.total_withdrawn =
      exampleSt.pool.total_withdrawn + exampleSt.transfer.amount :=
  (c5_withdrawal_original_amount 7 11 9 0 [] exampleSt exampleHandlerRun.2 rfl).1

/-- C6: for every transfer amount and every valid fee policy (a proportional
rate of at most 10000 basis points), the computed fee satisfies
`0 ≤ fee ≤ amount` (the lower bound is inherent to `Nat`), it equals the
proportional value without the clamp engaging, and the net amount
`amount - fee` is computed without underflow: adding the fee back
reconstitutes the amount exactly. -/
theorem c6_fee_bounds (p : Pool) (a : Nat) (hp : p.feeBps ≤ 10000) :
    p.calculate_transfer_fee a ≤ a ∧
    p.calculate_transfer_fee a = a * p.feeBps / 10000 ∧
    (a - p.calculate_transfer_fee a) + p.calculate_transfer_fee a = a := by
  have h1 : a * p.feeBps / 10000 ≤ a := by
    calc a * p.feeBps / 10000 ≤ a * 10000 / 10000 :=
          Nat.div_le_div_right (Nat.mul_le_mul_left a hp)
    _ = a := Nat.mul_div_cancel a (by norm_num)
  have hle := fee_le_amount p a
  exact ⟨hle, min_eq_left h1, by omega⟩

/-- C6 witness: the bounds at amount 1000 under the 2% policy. -/
theorem c6_witness :
    examplePool.calculate_transfer_fee 1000 ≤ 1000 ∧
    examplePool.calculate_transfer_fee 1000 = 1000 * examplePool.feeBps / 10000 ∧
    (1000 - examplePool.calculate_transfer_fee 1000) +
      examplePool.calculate_transfer_fee 1000 = 1000 :=
  c6_fee_bounds examplePool 1000 (by decide)

set_option maxRecDepth 10000 in
/-- C7 counterexample: the claim "calling `reject_transfer` with a reason
message of length 201 fails with `InvalidMemoLength`" is false as stated: a
caller who is not the operator (here key 1, operator 7) supplying a
201-byte message fails with `Unauthorized`, not `InvalidMemoLength`,
because the authorization check runs before the length check. -/
theorem c7_counterexample :
    (List.replicate 201 (0 : Nat)).length = 201 ∧
    reject_transfer 1 11 9 0 (List.replicate 201 (0 : Nat)) exampleSt =
      (.error .Unauthorized, exampleSt) ∧
    ProgError.Unauthorized ≠ ProgError.InvalidMemoLength := by decide

set_option maxRecDepth 10000 in
/-- C7 (amended): when called by the pool operator on a pending transfer, a
reason message of length 201 fails with `InvalidMemoLength` before any
counter change or fund movement (the returned state is exactly the input
state), while a reason message of length exactly 200 passes the length
check and the operation may succeed, witnessed by a concrete successful
run with a 200-byte message. -/
theorem c7_memo_bound (opk pk tk rc : Nat) (rm : List Nat) (s : ChainState) :
    (opk = s.pool.operator → s.transfer.status = .Pending → rm.length = 201 →
      reject_transfer opk pk tk rc rm s = (.error .InvalidMemoLength, s)) ∧
    ((List.replicate 200 (0 : Nat)).length = 200 ∧
      ∃ s1, reject_transfer 7 11 9 0 (List.replicate 200 (0 : Nat)) exampleSt =
        (.ok (), s1)) := by
  refine ⟨fun hop hst hlen =>
    reject_memo_too_long pk tk rc s hop hst (by omega),
    by simp,
    ⟨(reject_transfer 7 11 9 0 (List.replicate 200 (0 : Nat)) exampleSt).2, rfl⟩⟩

set_option maxRecDepth 10000 in
/-- C7 witness: the operator on a pending transfer with a 201-byte message
fails `InvalidMemoLength` with the state untouched. -/
theorem c7_witness :
    reject_transfer 7 11 9 0 (List.replicate 201 (0 : Nat)) exampleSt =
      (.error .InvalidMemoLength, exampleSt) :=
  (c7_memo_bound 7 11 9 0 (List.replicate 201 (0 : Nat)) exampleSt).1
    (by decide) (by decide) (by simp)

/-- C8: for a pool with a 2% fee (200 basis points) and a pending transfer
of amount 1000, a successful reject computes fee 20, refunds net 980 to the
sender, increments `total_withdrawn` by 1000, `total_fees_collected` by 20
and `transfers_resolved` by 1, sets the status to `Rejected`, and emits an
event carrying the supplied `reason_code` and `reason_message` together
with amount, fee and net; moreover whenever the computed fee is 0 — in
particular for amount 0 — the `add_collected_fees` call is skipped (the
fee counter is untouched) and the operation still succeeds and resolves the
transfer, witnessed by a concrete zero-amount run. -/
theorem c8_two_percent_scenario (opk pk tk rc : Nat) (rm : List Nat)
    (s s1 : ChainState)
    (hbps : s.pool.feeBps = 200) (hamt : s.transfer.amount = 1000)
    (h : reject_transfer opk pk tk rc rm s = (.ok (), s1)) :
    s.pool.calculate_transfer_fee s.transfer.amount = 20 ∧
    s1.senderTokenBalance = s.senderTokenBalance + 980 ∧
    s1.poolTokenBalance = s.poolTokenBalance - 980 ∧
    s1.pool.total_withdrawn = s.pool.total_withdrawn + 1000 ∧
    s1.pool.total_fees_collected = s.pool.total_fees_collected + 20 ∧
    s1.pool.transfers_resolved = s.pool.transfers_resolved + 1 ∧
    s1.transfer.status = .Rejected ∧
    s1.events = s.events ++
      [{ transfer := tk, pool := pk, sender := s.transfer.sender,
         recipient := s.transfer.recipient, amount := 1000, fee := 20,
         net_amount := 980, reason_code := rc, reason_message := rm }] ∧
    (∀ opk2 pk2 tk2 rc2 rm2 (s2 s3 : ChainState), s2.transfer.amount = 0 →
      reject_transfer opk2 pk2 tk2 rc2 rm2 s2 = (.ok (), s3) →
      s3.pool.total_fees_collected = s2.pool.total_fees_collected ∧
      s3.transfer.status = .Rejected) ∧
    (∃ s4, reject_transfer 7 11 9 0 [] zeroAmountSt = (.ok (), s4) ∧
      s4.transfer.status = .Rejected) := by
  have hfee : s.pool.calculate_transfer_fee s.transfer.amount = 20 := by
    rw [hamt]
    simp [Pool.calculate_transfer_fee, hbps]
  have hfee1000 : s.pool.calculate_transfer_fee 1000 = 20 := by
    rw [← hamt]; exact hfee
  obtain ⟨_, _, _, _, _, hs1⟩ := reject_transfer_ok_inv h
  subst hs1
  refine ⟨hfee, by simp [hamt, hfee1000], by simp [hamt, hfee1000],
    by simp [hamt], by simp [hamt, hfee1000], by simp, by simp,
    by simp [hamt, hfee1000],
    fun opk2 pk2 tk2 rc2 rm2 s2 s3 h0 h2 => ?_, ?_⟩
  · have hfz : s2.pool.calculate_transfer_fee s2.transfer.amount = 0 := by
      rw [h0]
      simp [Pool.calculate_transfer_fee]
    obtain ⟨_, _, _, _, _, hs3⟩ := reject_transfer_ok_inv h2
    subst hs3
    simp [hfz]
  · exact ⟨(reject_transfer 7 11 9 0 [] zeroAmountSt).2, rfl, by decide⟩

/-- C8 witness: the fee computed on the concrete 2% pool at amount 1000. -/
theorem c8_witness :
    exampleSt.pool.calculate_transfer_fee exampleSt.transfer.amount = 20 :=
  (c8_two_percent_scenario 7 11 9 0 [] exampleSt exampleHandlerRun.2
    rfl rfl rfl).1

/-- C9: after every successful `reject_transfer` instruction the
`SecureTransfer` account is closed in the same operation (the Anchor
`close = sender` constraint) and its rent lamports are credited to the
sender, so the on-chain transfer record does not persist past a successful
rejection. -/
theorem c9_close_on_success (opk pk mk tk rc : Nat) (rm : List Nat)
    (s s1 : ChainState)
    (h : reject_transfer_instruction opk pk mk tk rc rm s = (.ok (), s1)) :
    s1.transferClosed = true ∧
    s1.senderLamports = s.senderLamports + s.transferLamports ∧
    s1.transferLamports = 0 := by
  obtain ⟨hmk, hpk, s2, hok, hs1⟩ := reject_instruction_ok_inv h
  obtain ⟨_, _, _, _, _, hs2⟩ := reject_transfer_ok_inv hok
  subst hs1
  subst hs2
  exact ⟨rfl, rfl, rfl⟩

/-- C9 witness: the concrete successful run closes the transfer account and
credits its 9 rent lamports to the sender. -/
theorem c9_witness : exampleRun.2.transferClosed = true :=
  (c9_close_on_success 7 11 3 9 0 [] exampleSt exampleRun.2 rfl).1

end Handshake
